import Mathlib

/-!
Shallow embedding of the ace-fixings storefront repository's serverless
proxy handlers, OAuth/PKCE login flow, cart/session persistence and
pricing helpers, together with proofs of the specification claims.

JavaScript values that flow through the handlers are modelled by the
inductive type `Js`; JS truthiness is made explicit, machine numbers are
embedded as rationals (all arithmetic in the verified fragments is exact),
and effectful code is modelled by explicit state passing plus a trace of
the outgoing network calls.  External primitives that the repository does
not implement (JSON.parse, SHA-256, the network) enter the model as
function parameters, so every theorem quantifies over their behaviour.
-/

/-- A JSON/JavaScript value, as produced and consumed by the handlers. -/
inductive Js where
  | jnull : Js
  | jbool : Bool → Js
  | jnum : ℚ → Js
  | jstr : String → Js
  | jarr : List Js → Js
  | jobj : List (String × Js) → Js
  deriving Repr

/-- JavaScript truthiness of a `Js` value (`!v` in the source negates this):
`null`, `false`, `0` and `""` are falsy; arrays and objects are truthy. -/
def jsTruthy : Js → Bool
  | .jnull => false
  | .jbool b => b
  | .jnum q => decide (q ≠ 0)
  | .jstr s => decide (s ≠ "")
  | .jarr _ => true
  | .jobj _ => true

/-- Truthiness of a possibly-absent value (`undefined` is falsy). -/
def jsTruthyO : Option Js → Bool
  | none => false
  | some v => jsTruthy v

/-- Truthiness of a possibly-absent string field (`undefined`, `null` and
`""` all fail the `!field` validation checks in the source). -/
def truthyStr : Option String → Bool
  | none => false
  | some s => decide (s ≠ "")

/-- `process.env.X || defaultValue`: an unset or empty environment variable
falls back to the default, mirroring JS `||` on strings. -/
def envOr (v : Option String) (d : String) : String :=
  match v with
  | none => d
  | some s => if s = "" then d else s

/-- `variables || {}` from the source: a missing or falsy `variables`
payload is replaced by the empty object before forwarding. -/
def jsOrEmptyObj (v : Option Js) : Js :=
  match v with
  | none => Js.jobj []
  | some x => if jsTruthy x then x else Js.jobj []

-- ==========================
-- Netlify function src/netlify/functions/shopify.js
-- ==========================

/-- The Netlify event: HTTP method and raw request body. -/
structure NetlifyEvent where
  httpMethod : String
  body : Option String
  deriving Repr

/-- Environment variables read by the Netlify handler. -/
structure NetlifyEnv where
  SHOP_DOMAIN : Option String
  SHOPIFY_API_VERSION : Option String
  SHOPIFY_STOREFRONT_TOKEN : Option String
  deriving Repr

/-- The parsed JSON request body, as destructured by
`const { query, variables } = body` in the source. -/
structure NetlifyBody where
  query : Option Js
  variables' : Option Js
  deriving Repr

/-- One outgoing `fetch` call issued by the Netlify handler. -/
structure FetchCall where
  url : String
  method : String
  headers : List (String × String)
  body : Js
  deriving Repr

/-- The upstream `fetch` response: `res.ok`, `res.status`, `res.text()`. -/
structure FetchResult where
  ok : Bool
  status : Nat
  text : String
  deriving Repr

/-- A reply produced by the handler's local `reply` helper. -/
structure NetlifyReply where
  statusCode : Nat
  headers : List (String × String)
  body : Js
  deriving Repr

/-- The fixed CORS headers attached to every Netlify reply. -/
def corsHeaders : List (String × String) :=
  [("Content-Type", "application/json"),
   ("Access-Control-Allow-Origin", "*"),
   ("Access-Control-Allow-Headers", "Content-Type"),
   ("Access-Control-Allow-Methods", "POST, OPTIONS")]

/-- The `reply(statusCode, obj)` helper of the Netlify function. -/
def reply (statusCode : Nat) (obj : Js) : NetlifyReply :=
  { statusCode := statusCode, headers := corsHeaders, body := obj }

/-- `{ ok: false, error: msg }`. -/
def okFalse (msg : String) : Js :=
  Js.jobj [("ok", Js.jbool false), ("error", Js.jstr msg)]

/-- `event.body || "{}"`: a missing or empty body parses as the empty
object.  The literal is written with escapes to keep braces out of code. -/
def bodyOrEmpty (b : Option String) : String :=
  match b with
  | none => "\x7b\x7d"
  | some s => if s = "" then "\x7b\x7d" else s

/-- The Netlify `handler` from `src/netlify/functions/shopify.js`, as a pure
function of the event, the environment, and the external primitives
`parseJson` (JSON.parse on the request body), `respParse` (JSON.parse on the
upstream response text) and `fetch0` (the network; `Except.error` models a
thrown fetch error, caught by the outer try/catch).  The second component is
the trace of outgoing fetch calls, in order. -/
def netlifyHandler (parseJson : String → Option NetlifyBody)
    (respParse : String → Option Js)
    (fetch0 : FetchCall → Except String FetchResult)
    (event : NetlifyEvent) (env : NetlifyEnv) :
    NetlifyReply × List FetchCall :=
  if event.httpMethod = "OPTIONS" then
    (reply 200 (Js.jobj [("ok", Js.jbool true)]), [])
  else if event.httpMethod ≠ "POST" then
    (reply 405 (okFalse "Use POST"), [])
  else
    match parseJson (bodyOrEmpty event.body) with
    | none => (reply 400 (okFalse "Invalid JSON body"), [])
    | some body =>
      if ¬ jsTruthyO body.query then (reply 400 (okFalse "Missing query"), [])
      else
        let SHOP_DOMAIN := envOr env.SHOP_DOMAIN "acefixings.com"
        let API_VERSION := envOr env.SHOPIFY_API_VERSION "2025-07"
        if ¬ truthyStr env.SHOPIFY_STOREFRONT_TOKEN then
          (reply 500 (okFalse "Missing SHOPIFY_STOREFRONT_TOKEN env var"), [])
        else
          let TOKEN := (env.SHOPIFY_STOREFRONT_TOKEN).getD ""
          let url := "https://" ++ SHOP_DOMAIN ++ "/api/" ++ API_VERSION ++ "/graphql.json"
          let call : FetchCall :=
            { url := url, method := "POST",
              headers := [("Content-Type", "application/json"),
                          ("X-Shopify-Storefront-Access-Token", TOKEN)],
              body := Js.jobj [("query", body.query.getD Js.jnull),
                               ("variables", jsOrEmptyObj body.variables')] }
          match fetch0 call with
          | .error err => (reply 500 (okFalse err), [call])
          | .ok res =>
            let parsed :=
              match respParse res.text with
              | some p => p
              | none => Js.jobj [("raw", Js.jstr res.text)]
            if ¬ res.ok then
              (reply res.status (Js.jobj [("ok", Js.jbool false),
                 ("error", Js.jstr ("Shopify HTTP " ++ toString res.status)),
                 ("details", parsed)]), [call])
            else
              (reply 200 parsed, [call])

-- ==========================
-- VAT verification endpoint (Vercel API route submitVatVerification)
-- ==========================

/-- The incoming Vercel request: HTTP method plus the four fields
destructured from `req.body` (each possibly absent). -/
structure VatRequest where
  method : String
  customerEmail : Option String
  businessName : Option String
  country : Option String
  vatNumber : Option String
  deriving Repr

/-- Environment variables read by the VAT handler. -/
structure VatEnv where
  SHOPIFY_DOMAIN : Option String
  SHOP_DOMAIN : Option String
  SHOPIFY_ADMIN_API_TOKEN : Option String
  SHOPIFY_API_VERSION : Option String
  deriving Repr

/-- One entry of the `metafields` array passed to the `metafieldsSet`
mutation (`ns` models the JSON field `namespace`, `typ` the field `type`). -/
structure MetafieldInput where
  ownerId : String
  ns : String
  key : String
  typ : String
  value : String
  deriving Repr

/-- Which of the three GraphQL documents a call to `graphqlRequest` carries;
the query strings themselves are opaque constants in the source. -/
inductive GqlDoc where
  | searchCustomers
  | updateCustomerMetafield
  | addCustomerTag
  deriving Repr

/-- The variables object sent alongside each GraphQL document. -/
inductive GqlVars where
  | searchV (query : String)
  | metafieldsV (metafields : List MetafieldInput)
  | tagsV (id : String) (tags : List String)
  deriving Repr

/-- One outgoing call made through `graphqlRequest`: the Admin API URL it
posts to, the access token header, the document and its variables. -/
structure AdminCall where
  url : String
  token : String
  doc : GqlDoc
  vars : GqlVars
  deriving Repr

/-- The URL built by `graphqlRequest`:
`https://<domain>/admin/api/<apiVersion>/graphql.json`. -/
def adminApiUrl (domain apiVersion : String) : String :=
  "https://" ++ domain ++ "/admin/api/" ++ apiVersion ++ "/graphql.json"

/-- Upstream behaviour of the three `graphqlRequest` calls the handler can
make, in program order.  `Except.error` models a throw from
`graphqlRequest` (non-ok HTTP status or top-level GraphQL `errors`);
`Except.ok` carries the data the handler inspects: the customer ids of
`customers.edges` for the search, and the `userErrors` messages of the two
mutations. -/
structure VatUpstream where
  search : Except String (List String)
  metafields : Except String (List String)
  tags : Except String (List String)
  deriving Repr

/-- The handler's JSON reply: HTTP status and body. -/
structure VatResponse where
  status : Nat
  body : Js
  deriving Repr

/-- The VAT verification `handler`, as a pure function of the request, the
environment and the upstream responses.  The second component is the trace
of Admin-API calls actually issued, in order.  Mirrors the source: method
check, field validation, token check, customer search (404 on no match),
`metafieldsSet` (throwing on `userErrors`), `tagsAdd` (whose `userErrors`
are only logged), 200 with `success: true` at the end, and a catch-all 500
for anything thrown. -/
def vatHandler (req : VatRequest) (env : VatEnv) (up : VatUpstream) :
    VatResponse × List AdminCall :=
  if req.method ≠ "POST" then
    ({ status := 405, body := Js.jobj [("error", Js.jstr "Method not allowed")] }, [])
  else if ¬ (truthyStr req.customerEmail ∧ truthyStr req.businessName ∧
             truthyStr req.country ∧ truthyStr req.vatNumber) then
    ({ status := 400, body := Js.jobj [("error", Js.jstr "Missing required fields")] }, [])
  else
    let customerEmail := (req.customerEmail).getD ""
    let businessName := (req.businessName).getD ""
    let country := (req.country).getD ""
    let vatNumber := (req.vatNumber).getD ""
    let shopDomain := envOr env.SHOPIFY_DOMAIN (envOr env.SHOP_DOMAIN "acefixings.myshopify.com")
    let apiVersion := envOr env.SHOPIFY_API_VERSION "2024-01"
    if ¬ truthyStr env.SHOPIFY_ADMIN_API_TOKEN then
      ({ status := 500, body := Js.jobj [("error", Js.jstr "Missing admin API token")] }, [])
    else
      let adminToken := (env.SHOPIFY_ADMIN_API_TOKEN).getD ""
      let url := adminApiUrl shopDomain apiVersion
      let searchCall : AdminCall :=
        { url := url, token := adminToken, doc := .searchCustomers,
          vars := .searchV ("email:" ++ customerEmail) }
      match up.search with
      | .error e => ({ status := 500, body := Js.jobj [("error", Js.jstr e)] }, [searchCall])
      | .ok edges =>
        match edges with
        | [] =>
          ({ status := 404,
             body := Js.jobj [("error",
               Js.jstr ("Customer with email " ++ customerEmail ++ " not found"))] },
           [searchCall])
        | customerId :: _ =>
          let metaCall : AdminCall :=
            { url := url, token := adminToken, doc := .updateCustomerMetafield,
              vars := .metafieldsV
                [{ ownerId := customerId, ns := "custom", key := "vat_number",
                   typ := "single_line_text_field", value := vatNumber },
                 { ownerId := customerId, ns := "custom", key := "business_name",
                   typ := "single_line_text_field", value := businessName },
                 { ownerId := customerId, ns := "custom", key := "business_country",
                   typ := "single_line_text_field", value := country }] }
          match up.metafields with
          | .error e =>
            ({ status := 500, body := Js.jobj [("error", Js.jstr e)] },
             [searchCall, metaCall])
          | .ok metaErrs =>
            if metaErrs.length > 0 then
              ({ status := 500,
                 body := Js.jobj [("error",
                   Js.jstr ("Metafield update failed: " ++ String.intercalate ", " metaErrs))] },
               [searchCall, metaCall])
            else
              let tagCall : AdminCall :=
                { url := url, token := adminToken, doc := .addCustomerTag,
                  vars := .tagsV customerId ["No Vat Customers"] }
              match up.tags with
              | .error e =>
                ({ status := 500, body := Js.jobj [("error", Js.jstr e)] },
                 [searchCall, metaCall, tagCall])
              | .ok _tagErrs =>
                ({ status := 200,
                   body := Js.jobj [("success", Js.jbool true),
                     ("message", Js.jstr "VAT verification submitted successfully. Your application will be reviewed shortly.")] },
                 [searchCall, metaCall, tagCall])

-- ==========================
-- OAuth PKCE helpers (src App component)
-- ==========================

/-- The UTF-8 bytes of a string, as produced by `new TextEncoder().encode`. -/
def utf8Bytes (s : String) : List Nat :=
  s.toUTF8.toList.map (fun b => b.toNat)

/-- The standard base64 alphabet used by `btoa`. -/
def b64Alphabet : List Char :=
  "ABCDEFGHIJKLMNOPQRSTUVWXYZabcdefghijklmnopqrstuvwxyz0123456789+/".toList

/-- The base64 digit for a 6-bit value. -/
def b64Char (n : Nat) : Char := b64Alphabet.getD n 'A'

/-- Base64-encode a byte list, three bytes to four digits, `=`-padded:
the behaviour of `btoa` on the binary string built byte by byte. -/
def base64Chunks : List Nat → List Char
  | [] => []
  | [a] => [b64Char (a / 4), b64Char ((a % 4) * 16), '=', '=']
  | [a, b] => [b64Char (a / 4), b64Char ((a % 4) * 16 + b / 16),
               b64Char ((b % 16) * 4), '=']
  | a :: b :: c :: rest =>
      b64Char (a / 4) :: b64Char ((a % 4) * 16 + b / 16) ::
      b64Char ((b % 16) * 4 + c / 64) :: b64Char (c % 64) :: base64Chunks rest

/-- `btoa` over a byte list. -/
def btoa (bytes : List Nat) : String := String.mk (base64Chunks bytes)

/-- The character map of `.replace(/\+/g, "-").replace(/\//g, "_")`. -/
def swapChar (c : Char) : Char :=
  if c = '+' then '-' else if c = '/' then '_' else c

/-- `.replace(/\+/g, "-").replace(/\//g, "_")` on the base64 output. -/
def b64UrlChars (s : String) : String :=
  String.mk (s.toList.map swapChar)

/-- `.replace(/=+$/g, "")`: strip trailing padding. -/
def stripPad (s : String) : String :=
  String.mk ((s.toList.reverse.dropWhile (fun c => c = '=')).reverse)

/-- `sha256Base64Url` from the source: UTF-8 encode the input, hash it with
SHA-256 (the Web Crypto primitive, taken here as the parameter `sha`),
base64-encode the digest with `btoa`, then convert to unpadded base64url. -/
def sha256Base64Url (sha : List Nat → List Nat) (input : String) : String :=
  stripPad (b64UrlChars (btoa (sha (utf8Bytes input))))

/-- The OAuth constants of the app. -/
def CUSTOMER_ACCOUNTS_CLIENT_ID : String := "edc5278a-8942-4645-a802-bdfa625f8dbd"

/-- The deep-link redirect URI registered for the app. -/
def REDIRECT_URI : String := "shop.90779713878.app://callback"

/-- The record persisted under the PKCE storage key `K.PKCE`
(`created_at` is omitted: the model has no clock and nothing reads it). -/
structure PkceRecord where
  verifier : String
  state : String
  nonce : String
  redirect : String
  deriving Repr

/-- The auth record persisted under `K.AUTH`. -/
structure AuthRecord where
  access_token : String
  id_token : Option String
  refresh_token : Option String
  expires_at : Int
  deriving Repr

/-- The Capacitor `Preferences` key-value store, one field per storage key
of the `K` table: `K.VAT_MODE`, `K.CART_ID`, `K.AUTH`, `K.PKCE`,
`K.PROFILE`, `K.ORDERS_CACHE`.  Structured records stand for their
JSON-stringified values. -/
structure Storage where
  vat_mode : Option String
  cart_id : Option String
  auth : Option AuthRecord
  pkce : Option PkceRecord
  profile : Option String
  orders_cache : Option String
  deriving Repr

/-- The pure core of `startLogin`: given the PKCE random values produced by
`randomString` and the hash primitive, persist the PKCE record and build
the authorization-request query parameters (in `toQuery` insertion order).
Returns the updated store and the parameter list sent to the
authorization endpoint. -/
def startLogin (sha : List Nat → List Nat) (verifier state nonce : String)
    (store : Storage) : Storage × List (String × String) :=
  let challenge := sha256Base64Url sha verifier
  let rec0 : PkceRecord :=
    { verifier := verifier, state := state, nonce := nonce, redirect := REDIRECT_URI }
  let store' := { store with pkce := some rec0 }
  (store',
   [("client_id", CUSTOMER_ACCOUNTS_CLIENT_ID),
    ("response_type", "code"),
    ("redirect_uri", REDIRECT_URI),
    ("scope", "openid email customer-account-api:full"),
    ("state", state),
    ("nonce", nonce),
    ("code_challenge", challenge),
    ("code_challenge_method", "S256")])

/-- The token-endpoint response fields read by `handleOAuthCallback`. -/
structure TokenResp where
  access_token : Option String
  id_token : Option String
  refresh_token : Option String
  expires_in : Int
  deriving Repr

/-- The pure core of `handleOAuthCallback`: read the persisted PKCE record,
enforce the verifier and state guards, and post the authorization-code
grant to the token endpoint (`tokenPost`, the network).  Returns the form
body actually sent (`none` when a guard threw before the request) and
either the thrown error message or the updated store.  `now` stands for
`Date.now()`. -/
def handleOAuthCallback (tokenPost : List (String × String) → Except String TokenResp)
    (now : Int) (code stateParam : String) (store : Storage) :
    Option (List (String × String)) × Except String Storage :=
  match store.pkce with
  | none => (none, .error "Missing PKCE verifier (login session expired)")
  | some pkceObj =>
    if pkceObj.verifier = "" then
      (none, .error "Missing PKCE verifier (login session expired)")
    else if pkceObj.state ≠ "" ∧ stateParam ≠ "" ∧ pkceObj.state ≠ stateParam then
      (none, .error "State mismatch (possible stale login)")
    else
      let form :=
        [("grant_type", "authorization_code"),
         ("client_id", CUSTOMER_ACCOUNTS_CLIENT_ID),
         ("redirect_uri", REDIRECT_URI),
         ("code", code),
         ("code_verifier", pkceObj.verifier)]
      match tokenPost form with
      | .error e => (some form, .error e)
      | .ok tokenJson =>
        match tokenJson.access_token with
        | none => (some form, .error "Token exchange failed (missing access_token)")
        | some access_token =>
          if access_token = "" then
            (some form, .error "Token exchange failed (missing access_token)")
          else
            let authObj : AuthRecord :=
              { access_token := access_token, id_token := tokenJson.id_token,
                refresh_token := tokenJson.refresh_token,
                expires_at := now + tokenJson.expires_in * 1000 }
            (some form, .ok { store with auth := some authObj, pkce := none })

/-- The persistence effect of `logout`: `Preferences.remove` on `K.AUTH`,
`K.PROFILE` and `K.ORDERS_CACHE` (the in-memory React state resets are not
part of the persisted store). -/
def logout (store : Storage) : Storage :=
  { store with auth := none, profile := none, orders_cache := none }

-- ==========================
-- Cart id recovery (ensureCartId)
-- ==========================

/-- `ensureCartId` from the source, with the network abstracted: `fetch'`
models `fetchCart` (`Except.error` is a throw) and `create` models
`createCart`.  When a saved id is present its fetch is attempted inside a
`try { ... } catch {}`; on success the saved id is returned, on failure the
error is swallowed and a fresh cart is created, fetched and returned.
Errors of `createCart` and of the fresh fetch do propagate. -/
def ensureCartId (fetch' : String → Except String Unit)
    (create : Except String String) (cartId : Option String) :
    Except String String :=
  let freshPath : Except String String := do
    let newId ← create
    let _ ← fetch' newId
    pure newId
  match cartId with
  | some cid =>
    if cid ≠ "" then
      match fetch' cid with
      | .ok _ => .ok cid
      | .error _ => freshPath
    else freshPath
  | none => freshPath

-- ==========================
-- Bulk pricing (App component)
-- ==========================

/-- The `bulkPricingTiers` object: price multipliers keyed by the tier
thresholds "10", "25", "50", "100". -/
structure BulkTiers where
  t10 : ℚ
  t25 : ℚ
  t50 : ℚ
  t100 : ℚ
  deriving Repr

/-- `bulkPricingTiers = \x7b "10": 0.95, "25": 0.90, "50": 0.85, "100": 0.80 \x7d`. -/
def bulkPricingTiers : BulkTiers :=
  { t10 := 95/100, t25 := 90/100, t50 := 85/100, t100 := 80/100 }

/-- `getBulkPrice(basePrice, quantity)`: multiply the base price by the
tier multiplier (1 below the first tier). -/
def getBulkPrice (basePrice : ℚ) (quantity : ℤ) : ℚ :=
  let discount : ℚ :=
    if quantity ≥ 100 then bulkPricingTiers.t100
    else if quantity ≥ 50 then bulkPricingTiers.t50
    else if quantity ≥ 25 then bulkPricingTiers.t25
    else if quantity ≥ 10 then bulkPricingTiers.t10
    else 1
  basePrice * discount

/-- The effective `getBulkDiscount(quantity)`: of the two same-name
function declarations in the component, JS hoisting makes the later,
numeric one win; it returns the discount percentage. -/
def getBulkDiscount (quantity : ℤ) : ℚ :=
  if quantity ≥ 100 then 20
  else if quantity ≥ 50 then 15
  else if quantity ≥ 25 then 10
  else if quantity ≥ 10 then 5
  else 0

/-- The earlier, shadowed `getBulkDiscount` declaration, which returned
display strings ("20%" … "5%") or `null`; kept only to document the
shadowing. -/
def getBulkDiscountShadowed (quantity : ℤ) : Option String :=
  if quantity ≥ 100 then some "20%"
  else if quantity ≥ 50 then some "15%"
  else if quantity ≥ 25 then some "10%"
  else if quantity ≥ 10 then some "5%"
  else none

-- ==========================
-- Reorder (reorderFromOrder) and clamp
-- ==========================

/-- `clamp(n, min, max) = Math.max(min, Math.min(max, n))`. -/
def clamp (n lo hi : ℤ) : ℤ := Max.max lo (Min.min hi n)

/-- One node of `order.lineItems.nodes`: the variant id may be absent and
the quantity is a GraphQL `Int` that may be absent or null. -/
structure OrderLineItem where
  variantId : Option String
  quantity : Option ℤ
  deriving Repr

/-- An order as consumed by `reorderFromOrder`. -/
structure Order where
  lineItems : List OrderLineItem
  deriving Repr

/-- A `CartLineInput` submitted to the `cartLinesAdd` mutation. -/
structure CartLineInput where
  merchandiseId : Option String
  quantity : ℤ
  deriving Repr

/-- `Number(li.quantity || 1)`: a missing, null or zero quantity becomes 1. -/
def quantityOrOne (q : Option ℤ) : ℤ :=
  match q with
  | none => 1
  | some n => if n = 0 then 1 else n

/-- The `lines` array built by `reorderFromOrder`: map each line item to a
cart line with clamped quantity, then drop entries whose `merchandiseId`
is falsy. -/
def reorderLines (o : Order) : List CartLineInput :=
  (o.lineItems.map fun li =>
    { merchandiseId := li.variantId,
      quantity := clamp (quantityOrOne li.quantity) 1 999 : CartLineInput }).filter
    fun x => truthyStr x.merchandiseId

/-- The effect of `reorderFromOrder` on the cart: `some lines` means
`cartAddLinesBatch(lines)` is called; `none` means the function returns
early (no order, or no lines with a variant id) and no cart mutation is
issued. -/
def reorderFromOrder (order : Option Order) : Option (List CartLineInput) :=
  match order with
  | none => none
  | some o =>
    let lines := reorderLines o
    if lines.length = 0 then none else some lines

-- ==========================
-- decodeJwt
-- ==========================

/-- `typeof jwt === "string"`. -/
def jsIsString : Js → Bool
  | .jstr _ => true
  | _ => false

/-- Split a character list at every `'.'`, the semantics of the JS
`split(".")` on the underlying characters (`""` yields one empty part). -/
def splitDotChars : List Char → List (List Char)
  | [] => [[]]
  | c :: rest =>
    let r := splitDotChars rest
    if c = '.' then [] :: r
    else
      match r with
      | [] => [[c]]
      | h :: t => (c :: h) :: t

/-- `s.split(".")` from JS, as a list of strings. -/
def splitDot (s : String) : List String :=
  (splitDotChars s.toList).map String.mk

/-- `decodeJwt` from the source, over an arbitrary JS value.  The guards
(`!jwt`, `typeof jwt !== "string"`, fewer than two "."-separated parts)
return null; otherwise the payload segment `parts[1]` is decoded by
`base64UrlDecode` and parsed by `safeJsonParse`, abstracted together as the
parameter `decodePayload`. -/
def decodeJwt (decodePayload : String → Option Js) (jwt : Js) : Option Js :=
  if ¬ jsTruthy jwt ∨ ¬ jsIsString jwt then none
  else
    match jwt with
    | .jstr s =>
      let parts := splitDot s
      if parts.length < 2 then none
      else decodePayload (parts.getD 1 "")
    | _ => none

-- ==========================
-- Spec-side definition: unpadded base64url (RFC 4648 §5) for comparison
-- ==========================

/-- The base64url alphabet: the standard alphabet with `-` and `_` in
place of `+` and `/`. -/
def b64UrlAlphabet : List Char :=
  "ABCDEFGHIJKLMNOPQRSTUVWXYZabcdefghijklmnopqrstuvwxyz0123456789-_".toList

/-- The base64url digit for a 6-bit value. -/
def b64UrlDigit (n : Nat) : Char := b64UrlAlphabet.getD n 'A'

/-- The unpadded base64url encoding of a byte list, written directly from
the spec's words (three bytes to four url-safe digits, no padding); used
to check the source's btoa-then-replace-then-strip pipeline against it. -/
def base64UrlEncodeSpec : List Nat → List Char
  | [] => []
  | [a] => [b64UrlDigit (a / 4), b64UrlDigit ((a % 4) * 16)]
  | [a, b] => [b64UrlDigit (a / 4), b64UrlDigit ((a % 4) * 16 + b / 16),
               b64UrlDigit ((b % 16) * 4)]
  | a :: b :: c :: rest =>
      b64UrlDigit (a / 4) :: b64UrlDigit ((a % 4) * 16 + b / 16) ::
      b64UrlDigit ((b % 16) * 4 + c / 64) :: b64UrlDigit (c % 64) ::
      base64UrlEncodeSpec rest

/-- Look up a key in a JSON object value (`none` on other shapes). -/
def jsObjLookup (k : String) (v : Js) : Option Js :=
  match v with
  | .jobj kvs => kvs.lookup k
  | _ => none

-- ==========================
-- Theorems
-- ==========================

/-- C5 counterexample: on a store holding a cart id, `logout` leaves the
cart id in place, refuting the claim that the cart id is deleted from the
key-value store on logout. -/
theorem C5_cart_id_survives_logout_counterexample :
    (logout { vat_mode := some "inc", cart_id := some "gid:cart-1",
              auth := some { access_token := "t", id_token := none,
                             refresh_token := none, expires_at := 0 },
              pkce := none, profile := some "profile-json",
              orders_cache := some "orders-json" }).cart_id = some "gid:cart-1" ∧
    (some "gid:cart-1" : Option String) ≠ none := by
  exact ⟨rfl, by simp⟩

/-- C5 (amended): on logout the stored auth token, customer profile and
orders cache are removed from the Preferences store, but the cart id (and
the VAT-mode and PKCE entries) are left untouched, so the cart id outlives
logout. -/
theorem C5_logout_removes_auth_profile_orders :
    ∀ store : Storage,
      (logout store).auth = none ∧
      (logout store).profile = none ∧
      (logout store).orders_cache = none ∧
      (logout store).cart_id = store.cart_id ∧
      (logout store).vat_mode = store.vat_mode ∧
      (logout store).pkce = store.pkce := by
  intro store
  exact ⟨rfl, rfl, rfl, rfl, rfl, rfl⟩

/-- C6 counterexample: with a saved cart id "old" whose fetch fails,
`ensureCartId` returns the id of a freshly created cart rather than
propagating the fetch error, refuting the claim. -/
theorem C6_ensureCartId_recovers_counterexample :
    ensureCartId (fun id => if id = "old" then Except.error "Cart not found" else Except.ok ())
      (Except.ok "new") (some "old") = Except.ok "new" ∧
    (Except.ok "new" : Except String String) ≠ Except.error "Cart not found" := by
  exact ⟨rfl, by simp⟩

/-- C6 (amended): when the fetch of a saved cart id fails, `ensureCartId`
swallows that error and falls back to creating a fresh cart, fetching it
and returning its id; only errors of the creation or of the fresh fetch
propagate. -/
theorem C6_ensureCartId_falls_back_to_fresh_cart
    (fetch' : String → Except String Unit) (create : Except String String)
    (cid : String) (e : String) (hcid : cid ≠ "") (hfe : fetch' cid = Except.error e) :
    ensureCartId fetch' create (some cid) =
      (do
        let newId ← create
        let _ ← fetch' newId
        pure newId) := by
  unfold ensureCartId
  simp [hcid, hfe]

/-- C6 witness: the fallback theorem applied at a concrete failing fetch. -/
theorem C6_ensureCartId_falls_back_witness :
    ("old" : String) ≠ "" ∧
    ensureCartId (fun _ => Except.error "boom") (Except.ok "fresh") (some "old") =
      (do
        let newId ← Except.ok "fresh"
        let _ ← (fun (_ : String) => (Except.error "boom" : Except String Unit)) newId
        pure newId) :=
  ⟨by simp, C6_ensureCartId_falls_back_to_fresh_cart
      (fun _ => Except.error "boom") (Except.ok "fresh") "old" "boom" (by simp) rfl⟩

/-- C8: bulk-pricing consistency and monotonicity.  For every base price
and integer quantity, `getBulkPrice` equals the base price scaled by
`1 - getBulkDiscount/100` under the effective (last-declared, numeric)
`getBulkDiscount`; the discount is non-decreasing in the quantity, takes
values in \x7b0, 5, 10, 15, 20\x7d, and follows the tier thresholds
10 / 25 / 50 / 100. -/
theorem C8_bulk_pricing_consistent_monotone :
    ∀ (b : ℚ) (q q₁ q₂ : ℤ), q₁ ≤ q₂ →
      getBulkPrice b q = b * (1 - getBulkDiscount q / 100) ∧
      getBulkDiscount q₁ ≤ getBulkDiscount q₂ ∧
      getBulkDiscount q ∈ ([0, 5, 10, 15, 20] : List ℚ) ∧
      (q < 10 → getBulkDiscount q = 0) ∧
      (10 ≤ q → q < 25 → getBulkDiscount q = 5) ∧
      (25 ≤ q → q < 50 → getBulkDiscount q = 10) ∧
      (50 ≤ q → q < 100 → getBulkDiscount q = 15) ∧
      (100 ≤ q → getBulkDiscount q = 20) := by
  intro b q q₁ q₂ h12
  refine ⟨?_, ?_, ?_, ?_, ?_, ?_, ?_, ?_⟩
  · unfold getBulkPrice getBulkDiscount bulkPricingTiers
    split_ifs <;> ring_nf
  · unfold getBulkDiscount
    split_ifs <;> first | (exfalso; omega) | norm_num
  · unfold getBulkDiscount
    split_ifs <;> simp
  · intro h; unfold getBulkDiscount
    split_ifs <;> first | rfl | (exfalso; omega)
  · intro h h'; unfold getBulkDiscount
    split_ifs <;> first | rfl | (exfalso; omega)
  · intro h h'; unfold getBulkDiscount
    split_ifs <;> first | rfl | (exfalso; omega)
  · intro h h'; unfold getBulkDiscount
    split_ifs <;> first | rfl | (exfalso; omega)
  · intro h; unfold getBulkDiscount
    rw [if_pos (by omega : q ≥ 100)]

/-- C8 witness: the bulk-pricing theorem at base price 2 and quantities
30 ≤ 200. -/
theorem C8_bulk_pricing_witness :
    (30 : ℤ) ≤ 200 ∧
    (getBulkPrice 2 30 = 2 * (1 - getBulkDiscount 30 / 100) ∧
     getBulkDiscount 30 ≤ getBulkDiscount 200 ∧
     getBulkDiscount 30 ∈ ([0, 5, 10, 15, 20] : List ℚ) ∧
     ((30 : ℤ) < 10 → getBulkDiscount 30 = 0) ∧
     ((10 : ℤ) ≤ 30 → (30 : ℤ) < 25 → getBulkDiscount 30 = 5) ∧
     ((25 : ℤ) ≤ 30 → (30 : ℤ) < 50 → getBulkDiscount 30 = 10) ∧
     ((50 : ℤ) ≤ 30 → (30 : ℤ) < 100 → getBulkDiscount 30 = 15) ∧
     ((100 : ℤ) ≤ 30 → getBulkDiscount 30 = 20)) :=
  ⟨by norm_num, C8_bulk_pricing_consistent_monotone 2 30 30 200 (by norm_num)⟩

/-- The clamp helper keeps its result between the given bounds. -/
theorem clamp_bounds (n lo hi : ℤ) (h : lo ≤ hi) :
    lo ≤ clamp n lo hi ∧ clamp n lo hi ≤ hi := by
  unfold clamp
  exact ⟨le_max_left _ _, max_le h (min_le_left _ _)⟩

/-- C9: every cart line submitted by `reorderFromOrder` has a present,
non-empty `merchandiseId` and a quantity clamped between 1 and 999
(line items without a variant id are dropped), and when the order yields
no such lines — or there is no order — no cart mutation is issued. -/
theorem C9_reorder_lines_valid :
    ∀ order : Option Order,
      (∀ lines, reorderFromOrder order = some lines →
        ∀ l ∈ lines, (∃ s, l.merchandiseId = some s ∧ s ≠ "") ∧
          1 ≤ l.quantity ∧ l.quantity ≤ 999) ∧
      (∀ o, order = some o → reorderLines o = [] → reorderFromOrder order = none) ∧
      (order = none → reorderFromOrder order = none) := by
  intro order
  refine ⟨?_, ?_, ?_⟩
  · intro lines hsome l hl
    cases order with
    | none => simp [reorderFromOrder] at hsome
    | some o =>
      have hlines : lines = reorderLines o := by
        by_cases hlen : (reorderLines o).length = 0
        · simp [reorderFromOrder, hlen] at hsome
        · simp [reorderFromOrder, hlen] at hsome
          exact hsome.symm
      subst hlines
      simp only [reorderLines, List.mem_filter, List.mem_map] at hl
      obtain ⟨⟨li, _hmem, hli⟩, htruthy⟩ := hl
      constructor
      · match hmid : l.merchandiseId with
        | none => simp [truthyStr, hmid] at htruthy
        | some s =>
          refine ⟨s, rfl, ?_⟩
          simpa [truthyStr, hmid] using htruthy
      · have hq : l.quantity = clamp (quantityOrOne li.quantity) 1 999 := by
          rw [← hli]
        rw [hq]
        exact clamp_bounds _ 1 999 (by norm_num)
  · intro o ho hempty
    subst ho
    simp [reorderFromOrder, hempty]
  · intro h; subst h; rfl

/-- C9 witness: the reorder theorem at a concrete order mixing valid,
variant-less and oversized line items. -/
theorem C9_reorder_lines_valid_witness :
    (∀ lines,
        reorderFromOrder (some { lineItems :=
          [{ variantId := some "gid:v1", quantity := some 2500 },
           { variantId := none, quantity := some 3 },
           { variantId := some "gid:v2", quantity := none }] }) = some lines →
        ∀ l ∈ lines, (∃ s, l.merchandiseId = some s ∧ s ≠ "") ∧
          1 ≤ l.quantity ∧ l.quantity ≤ 999) ∧
    (∀ o, (some { lineItems :=
          [{ variantId := some "gid:v1", quantity := some 2500 },
           { variantId := none, quantity := some 3 },
           { variantId := some "gid:v2", quantity := none }] } : Option Order) = some o →
        reorderLines o = [] →
        reorderFromOrder (some { lineItems :=
          [{ variantId := some "gid:v1", quantity := some 2500 },
           { variantId := none, quantity := some 3 },
           { variantId := some "gid:v2", quantity := none }] }) = none) ∧
    ((some { lineItems :=
          [{ variantId := some "gid:v1", quantity := some 2500 },
           { variantId := none, quantity := some 3 },
           { variantId := some "gid:v2", quantity := none }] } : Option Order) = none →
        reorderFromOrder (some { lineItems :=
          [{ variantId := some "gid:v1", quantity := some 2500 },
           { variantId := none, quantity := some 3 },
           { variantId := some "gid:v2", quantity := none }] }) = none) :=
  C9_reorder_lines_valid (some { lineItems :=
    [{ variantId := some "gid:v1", quantity := some 2500 },
     { variantId := none, quantity := some 3 },
     { variantId := some "gid:v2", quantity := none }] })

/-- C10: `decodeJwt` is total on malformed shapes — any non-string input,
and any string splitting into fewer than two "."-separated parts, yields
`null`; in particular `decodeJwt(null)` and `decodeJwt("")` are `null`.
This holds for every behaviour of the payload decoder. -/
theorem C10_decodeJwt_total_on_malformed :
    ∀ (decodePayload : String → Option Js) (jwt : Js),
      (jsIsString jwt = false → decodeJwt decodePayload jwt = none) ∧
      (∀ s, jwt = Js.jstr s → (splitDot s).length < 2 →
        decodeJwt decodePayload jwt = none) ∧
      decodeJwt decodePayload Js.jnull = none ∧
      decodeJwt decodePayload (Js.jstr "") = none := by
  intro decodePayload jwt
  refine ⟨?_, ?_, rfl, rfl⟩
  · intro hns
    cases jwt <;> simp_all [decodeJwt, jsIsString]
  · intro s hjs hlen
    subst hjs
    by_cases hs : s = ""
    · subst hs; rfl
    · simp [decodeJwt, jsTruthy, jsIsString, hs, hlen]

/-- C10 witness: the totality theorem applied to a number, a one-segment
string, null and the empty string. -/
theorem C10_decodeJwt_total_witness :
    decodeJwt (fun _ => some (Js.jobj [])) (Js.jnum 3) = none ∧
    decodeJwt (fun _ => some (Js.jobj [])) (Js.jstr "onlyonesegment") = none ∧
    decodeJwt (fun _ => some (Js.jobj [])) Js.jnull = none ∧
    decodeJwt (fun _ => some (Js.jobj [])) (Js.jstr "") = none :=
  ⟨(C10_decodeJwt_total_on_malformed (fun _ => some (Js.jobj [])) (Js.jnum 3)).1 rfl,
   (C10_decodeJwt_total_on_malformed (fun _ => some (Js.jobj [])) (Js.jstr "onlyonesegment")).2.1
     "onlyonesegment" rfl (by decide),
   (C10_decodeJwt_total_on_malformed (fun _ => some (Js.jobj [])) Js.jnull).2.2.1,
   (C10_decodeJwt_total_on_malformed (fun _ => some (Js.jobj [])) (Js.jstr "")).2.2.2⟩

/-- C7: the two proxy handlers are stateless and deterministic.  Both are
pure functions of the event/request, the environment and the upstream
responses (the embedding has no other state to carry between invocations,
and the JS modules hold no module-level mutable bindings), so two
invocations with equal events, equal environments and identical upstream
behaviour return identical status codes, headers, bodies and traces. -/
theorem C7_proxies_stateless_deterministic
    (pj₁ pj₂ : String → Option NetlifyBody) (rp₁ rp₂ : String → Option Js)
    (f₁ f₂ : FetchCall → Except String FetchResult)
    (e₁ e₂ : NetlifyEvent) (nv₁ nv₂ : NetlifyEnv)
    (r₁ r₂ : VatRequest) (ve₁ ve₂ : VatEnv) (u₁ u₂ : VatUpstream)
    (hpj : pj₁ = pj₂) (hrp : rp₁ = rp₂) (hf : f₁ = f₂) (he : e₁ = e₂)
    (hnv : nv₁ = nv₂) (hr : r₁ = r₂) (hve : ve₁ = ve₂) (hu : u₁ = u₂) :
    netlifyHandler pj₁ rp₁ f₁ e₁ nv₁ = netlifyHandler pj₂ rp₂ f₂ e₂ nv₂ ∧
    vatHandler r₁ ve₁ u₁ = vatHandler r₂ ve₂ u₂ := by
  subst hpj hrp hf he hnv hr hve hu
  exact ⟨rfl, rfl⟩

/-- C7 witness: determinism at a concrete pair of identical invocations. -/
theorem C7_proxies_stateless_witness :
    netlifyHandler (fun _ => none) (fun _ => none) (fun _ => Except.error "net")
        { httpMethod := "POST", body := some "x" }
        { SHOP_DOMAIN := none, SHOPIFY_API_VERSION := none,
          SHOPIFY_STOREFRONT_TOKEN := some "tok" } =
      netlifyHandler (fun _ => none) (fun _ => none) (fun _ => Except.error "net")
        { httpMethod := "POST", body := some "x" }
        { SHOP_DOMAIN := none, SHOPIFY_API_VERSION := none,
          SHOPIFY_STOREFRONT_TOKEN := some "tok" } ∧
    vatHandler
        { method := "POST", customerEmail := some "a@b.c", businessName := some "B",
          country := some "IE", vatNumber := some "V1" }
        { SHOPIFY_DOMAIN := none, SHOP_DOMAIN := none,
          SHOPIFY_ADMIN_API_TOKEN := some "admin", SHOPIFY_API_VERSION := none }
        { search := Except.ok ["gid:c1"], metafields := Except.ok [],
          tags := Except.ok [] } =
      vatHandler
        { method := "POST", customerEmail := some "a@b.c", businessName := some "B",
          country := some "IE", vatNumber := some "V1" }
        { SHOPIFY_DOMAIN := none, SHOP_DOMAIN := none,
          SHOPIFY_ADMIN_API_TOKEN := some "admin", SHOPIFY_API_VERSION := none }
        { search := Except.ok ["gid:c1"], metafields := Except.ok [],
          tags := Except.ok [] } :=
  C7_proxies_stateless_deterministic
    (fun _ => none) (fun _ => none) (fun _ => none) (fun _ => none)
    (fun _ => Except.error "net") (fun _ => Except.error "net")
    { httpMethod := "POST", body := some "x" }
    { httpMethod := "POST", body := some "x" }
    { SHOP_DOMAIN := none, SHOPIFY_API_VERSION := none,
      SHOPIFY_STOREFRONT_TOKEN := some "tok" }
    { SHOP_DOMAIN := none, SHOPIFY_API_VERSION := none,
      SHOPIFY_STOREFRONT_TOKEN := some "tok" }
    { method := "POST", customerEmail := some "a@b.c", businessName := some "B",
      country := some "IE", vatNumber := some "V1" }
    { method := "POST", customerEmail := some "a@b.c", businessName := some "B",
      country := some "IE", vatNumber := some "V1" }
    { SHOPIFY_DOMAIN := none, SHOP_DOMAIN := none,
      SHOPIFY_ADMIN_API_TOKEN := some "admin", SHOPIFY_API_VERSION := none }
    { SHOPIFY_DOMAIN := none, SHOP_DOMAIN := none,
      SHOPIFY_ADMIN_API_TOKEN := some "admin", SHOPIFY_API_VERSION := none }
    { search := Except.ok ["gid:c1"], metafields := Except.ok [], tags := Except.ok [] }
    { search := Except.ok ["gid:c1"], metafields := Except.ok [], tags := Except.ok [] }
    rfl rfl rfl rfl rfl rfl rfl rfl

/-- C3: a non-POST request to the VAT endpoint is answered 405, and a POST
whose body lacks (or has empty) `customerEmail`, `businessName`, `country`
or `vatNumber` is answered 400; in both cases the trace of outgoing
Shopify Admin-API calls is empty — no customer search, metafield write or
tag add is issued. -/
theorem C3_vat_validation_no_side_effects
    (req : VatRequest) (env : VatEnv) (up : VatUpstream) :
    (req.method ≠ "POST" →
      (vatHandler req env up).1.status = 405 ∧ (vatHandler req env up).2 = []) ∧
    (req.method = "POST" →
      ¬ (truthyStr req.customerEmail ∧ truthyStr req.businessName ∧
         truthyStr req.country ∧ truthyStr req.vatNumber) →
      (vatHandler req env up).1.status = 400 ∧ (vatHandler req env up).2 = []) := by
  constructor
  · intro hm
    unfold vatHandler
    rw [if_pos hm]
    exact ⟨rfl, rfl⟩
  · intro hm hmiss
    unfold vatHandler
    rw [if_neg (by simp [hm]), if_pos hmiss]
    exact ⟨rfl, rfl⟩

/-- C3 witness: a GET request and a POST missing the VAT number, each
yielding the claimed status with an empty call trace. -/
theorem C3_vat_validation_witness :
    (("GET" : String) ≠ "POST" ∧
      (vatHandler
        { method := "GET", customerEmail := some "a@b.c", businessName := some "B",
          country := some "IE", vatNumber := some "V1" }
        { SHOPIFY_DOMAIN := none, SHOP_DOMAIN := none,
          SHOPIFY_ADMIN_API_TOKEN := some "admin", SHOPIFY_API_VERSION := none }
        { search := Except.ok ["gid:c1"], metafields := Except.ok [],
          tags := Except.ok [] }).1.status = 405 ∧
      (vatHandler
        { method := "GET", customerEmail := some "a@b.c", businessName := some "B",
          country := some "IE", vatNumber := some "V1" }
        { SHOPIFY_DOMAIN := none, SHOP_DOMAIN := none,
          SHOPIFY_ADMIN_API_TOKEN := some "admin", SHOPIFY_API_VERSION := none }
        { search := Except.ok ["gid:c1"], metafields := Except.ok [],
          tags := Except.ok [] }).2 = []) ∧
    ((vatHandler
        { method := "POST", customerEmail := some "a@b.c", businessName := some "B",
          country := some "IE", vatNumber := none }
        { SHOPIFY_DOMAIN := none, SHOP_DOMAIN := none,
          SHOPIFY_ADMIN_API_TOKEN := some "admin", SHOPIFY_API_VERSION := none }
        { search := Except.ok ["gid:c1"], metafields := Except.ok [],
          tags := Except.ok [] }).1.status = 400 ∧
      (vatHandler
        { method := "POST", customerEmail := some "a@b.c", businessName := some "B",
          country := some "IE", vatNumber := none }
        { SHOPIFY_DOMAIN := none, SHOP_DOMAIN := none,
          SHOPIFY_ADMIN_API_TOKEN := some "admin", SHOPIFY_API_VERSION := none }
        { search := Except.ok ["gid:c1"], metafields := Except.ok [],
          tags := Except.ok [] }).2 = []) := by
  refine ⟨⟨by simp, ?_⟩, ?_⟩
  · exact (C3_vat_validation_no_side_effects
      { method := "GET", customerEmail := some "a@b.c", businessName := some "B",
        country := some "IE", vatNumber := some "V1" }
      { SHOPIFY_DOMAIN := none, SHOP_DOMAIN := none,
        SHOPIFY_ADMIN_API_TOKEN := some "admin", SHOPIFY_API_VERSION := none }
      { search := Except.ok ["gid:c1"], metafields := Except.ok [],
        tags := Except.ok [] }).1 (by simp)
  · exact (C3_vat_validation_no_side_effects
      { method := "POST", customerEmail := some "a@b.c", businessName := some "B",
        country := some "IE", vatNumber := none }
      { SHOPIFY_DOMAIN := none, SHOP_DOMAIN := none,
        SHOPIFY_ADMIN_API_TOKEN := some "admin", SHOPIFY_API_VERSION := none }
      { search := Except.ok ["gid:c1"], metafields := Except.ok [],
        tags := Except.ok [] }).2 rfl (by simp [truthyStr])

/-- C1 counterexample: on a valid POST (parseable body with a query, token
present, default domain and version) the Netlify proxy's single outgoing
request goes to `https://acefixings.com/api/2025-07/graphql.json` — the
Storefront API endpoint — and not to the claimed
`/admin/api/<version>/graphql.json` path; the URL does not even contain
the `/admin/` segment. -/
theorem C1_netlify_not_admin_counterexample :
    (netlifyHandler
        (fun _ => some { query := some (Js.jstr "q"), variables' := none })
        (fun _ => some (Js.jobj []))
        (fun _ => Except.ok { ok := true, status := 200, text := "resp" })
        { httpMethod := "POST", body := some "ignored" }
        { SHOP_DOMAIN := none, SHOPIFY_API_VERSION := none,
          SHOPIFY_STOREFRONT_TOKEN := some "tok" }).2.map FetchCall.url =
      ["https://acefixings.com/api/2025-07/graphql.json"] ∧
    "https://acefixings.com/api/2025-07/graphql.json" ≠
      adminApiUrl "acefixings.com" "2025-07" ∧
    ¬ ("/admin/".toList <:+: "https://acefixings.com/api/2025-07/graphql.json".toList) := by
  refine ⟨rfl, by decide, by decide⟩

/-- C1 (amended): of the two serverless proxies, only the VAT-verification
endpoint forwards to Shopify's Admin GraphQL API at
`/admin/api/<version>/graphql.json`; the Netlify function forwards every
valid POST to the Storefront GraphQL endpoint
`https://<domain>/api/<version>/graphql.json` instead. -/
theorem C1_proxy_target_urls
    (pj : String → Option NetlifyBody) (rp : String → Option Js)
    (f : FetchCall → Except String FetchResult)
    (ev : NetlifyEvent) (nv : NetlifyEnv) (body : NetlifyBody)
    (req : VatRequest) (venv : VatEnv) (vup : VatUpstream)
    (hm : ev.httpMethod = "POST")
    (hp : pj (bodyOrEmpty ev.body) = some body)
    (hq : jsTruthyO body.query = true)
    (ht : truthyStr nv.SHOPIFY_STOREFRONT_TOKEN = true)
    (hm' : req.method = "POST")
    (hfields : truthyStr req.customerEmail ∧ truthyStr req.businessName ∧
               truthyStr req.country ∧ truthyStr req.vatNumber)
    (ht' : truthyStr venv.SHOPIFY_ADMIN_API_TOKEN = true) :
    (netlifyHandler pj rp f ev nv).2.map FetchCall.url =
      ["https://" ++ envOr nv.SHOP_DOMAIN "acefixings.com" ++ "/api/" ++
        envOr nv.SHOPIFY_API_VERSION "2025-07" ++ "/graphql.json"] ∧
    (vatHandler req venv vup).2 ≠ [] ∧
    ∀ c ∈ (vatHandler req venv vup).2, c.url =
      adminApiUrl (envOr venv.SHOPIFY_DOMAIN (envOr venv.SHOP_DOMAIN "acefixings.myshopify.com"))
        (envOr venv.SHOPIFY_API_VERSION "2024-01") := by
  refine ⟨?_, ?_, ?_⟩
  · unfold netlifyHandler
    rw [hm, hp]
    rw [if_neg (by decide : ¬ ("POST" : String) = "OPTIONS")]
    rw [if_neg (by simp : ¬ ("POST" : String) ≠ "POST")]
    simp only [hq, ht]
    norm_num
    split <;> first | simp | (split <;> simp)
  · unfold vatHandler
    rw [if_neg (by simp [hm']), if_neg (not_not_intro hfields),
        if_neg (by simp [ht'])]
    rcases vup with ⟨s, mf, tg⟩
    rcases s with e | edges
    · simp
    · rcases edges with _ | ⟨cid, rest⟩
      · simp
      · rcases mf with e' | metaErrs
        · simp
        · by_cases hme : metaErrs.length > 0
          · simp [hme]
          · rcases tg with e'' | tagErrs <;> simp [hme]
  · unfold vatHandler
    rw [if_neg (by simp [hm']), if_neg (not_not_intro hfields),
        if_neg (by simp [ht'])]
    rcases vup with ⟨s, mf, tg⟩
    rcases s with e | edges
    · simp
    · rcases edges with _ | ⟨cid, rest⟩
      · simp
      · rcases mf with e' | metaErrs
        · simp
        · by_cases hme : metaErrs.length > 0
          · simp [hme]
          · rcases tg with e'' | tagErrs <;> simp [hme]

/-- C1 witness: the amended target-URL theorem at concrete valid POSTs to
both endpoints, with default domains and versions. -/
theorem C1_proxy_target_urls_witness :
    (netlifyHandler
        (fun _ => some { query := some (Js.jstr "q"), variables' := none })
        (fun _ => none) (fun _ => Except.error "net")
        { httpMethod := "POST", body := none }
        { SHOP_DOMAIN := none, SHOPIFY_API_VERSION := none,
          SHOPIFY_STOREFRONT_TOKEN := some "tok" }).2.map FetchCall.url =
      ["https://acefixings.com/api/2025-07/graphql.json"] ∧
    (vatHandler
        { method := "POST", customerEmail := some "a@b.c", businessName := some "B",
          country := some "IE", vatNumber := some "V1" }
        { SHOPIFY_DOMAIN := none, SHOP_DOMAIN := none,
          SHOPIFY_ADMIN_API_TOKEN := some "admin", SHOPIFY_API_VERSION := none }
        { search := Except.ok ["gid:c1"], metafields := Except.ok [],
          tags := Except.ok [] }).2 ≠ [] ∧
    ∀ c ∈ (vatHandler
        { method := "POST", customerEmail := some "a@b.c", businessName := some "B",
          country := some "IE", vatNumber := some "V1" }
        { SHOPIFY_DOMAIN := none, SHOP_DOMAIN := none,
          SHOPIFY_ADMIN_API_TOKEN := some "admin", SHOPIFY_API_VERSION := none }
        { search := Except.ok ["gid:c1"], metafields := Except.ok [],
          tags := Except.ok [] }).2,
      c.url = adminApiUrl "acefixings.myshopify.com" "2024-01" := by
  have h := C1_proxy_target_urls
    (fun _ => some { query := some (Js.jstr "q"), variables' := none })
    (fun _ => none) (fun _ => Except.error "net")
    { httpMethod := "POST", body := none }
    { SHOP_DOMAIN := none, SHOPIFY_API_VERSION := none,
      SHOPIFY_STOREFRONT_TOKEN := some "tok" }
    { query := some (Js.jstr "q"), variables' := none }
    { method := "POST", customerEmail := some "a@b.c", businessName := some "B",
      country := some "IE", vatNumber := some "V1" }
    { SHOPIFY_DOMAIN := none, SHOP_DOMAIN := none,
      SHOPIFY_ADMIN_API_TOKEN := some "admin", SHOPIFY_API_VERSION := none }
    { search := Except.ok ["gid:c1"], metafields := Except.ok [], tags := Except.ok [] }
    rfl rfl rfl rfl rfl ⟨rfl, rfl, rfl, rfl⟩ rfl
  exact ⟨h.1, h.2.1, h.2.2⟩

/-- C2: for every POST to the VAT endpoint carrying all four fields (with
the admin token configured) the handler first searches the customer by
email; when no customer matches it responds 404 having made only the
search call; when a customer is found and the metafield write is clean it
issues, in order, the customer search, a `metafieldsSet` writing the three
metafields `vat_number`, `business_name` and `business_country` for that
customer, and a `tagsAdd` of the tag "No Vat Customers" — and whatever
`userErrors` the tag add reports, it responds 200 with `success: true`. -/
theorem C2_vat_happy_path
    (req : VatRequest) (env : VatEnv) (up : VatUpstream)
    (hm : req.method = "POST")
    (hfields : truthyStr req.customerEmail ∧ truthyStr req.businessName ∧
               truthyStr req.country ∧ truthyStr req.vatNumber)
    (ht : truthyStr env.SHOPIFY_ADMIN_API_TOKEN = true) :
    ((vatHandler req env up).2.head?.map AdminCall.doc = some GqlDoc.searchCustomers ∧
     (vatHandler req env up).2.head?.map AdminCall.vars =
       some (GqlVars.searchV ("email:" ++ req.customerEmail.getD ""))) ∧
    (up.search = Except.ok [] →
      (vatHandler req env up).1.status = 404 ∧
      (vatHandler req env up).2.map AdminCall.doc = [GqlDoc.searchCustomers]) ∧
    (∀ cid rest tagErrs,
      up.search = Except.ok (cid :: rest) → up.metafields = Except.ok [] →
      up.tags = Except.ok tagErrs →
      (vatHandler req env up).2.map AdminCall.doc =
        [GqlDoc.searchCustomers, GqlDoc.updateCustomerMetafield, GqlDoc.addCustomerTag] ∧
      ((vatHandler req env up).2.map AdminCall.vars).getD 1 (GqlVars.searchV "") =
        GqlVars.metafieldsV
          [{ ownerId := cid, ns := "custom", key := "vat_number",
             typ := "single_line_text_field", value := req.vatNumber.getD "" },
           { ownerId := cid, ns := "custom", key := "business_name",
             typ := "single_line_text_field", value := req.businessName.getD "" },
           { ownerId := cid, ns := "custom", key := "business_country",
             typ := "single_line_text_field", value := req.country.getD "" }] ∧
      ((vatHandler req env up).2.map AdminCall.vars).getD 2 (GqlVars.searchV "") =
        GqlVars.tagsV cid ["No Vat Customers"] ∧
      (vatHandler req env up).1.status = 200 ∧
      jsObjLookup "success" (vatHandler req env up).1.body = some (Js.jbool true)) := by
  refine ⟨?_, ?_, ?_⟩
  · unfold vatHandler
    rw [if_neg (by simp [hm]), if_neg (not_not_intro hfields), if_neg (by simp [ht])]
    rcases up with ⟨s, mf, tg⟩
    rcases s with e | edges
    · simp
    · rcases edges with _ | ⟨cid, rest⟩
      · simp
      · rcases mf with e' | metaErrs
        · simp
        · by_cases hme : metaErrs.length > 0
          · simp [hme]
          · rcases tg with e'' | tagErrs <;> simp [hme]
  · intro hs
    unfold vatHandler
    rw [if_neg (by simp [hm]), if_neg (not_not_intro hfields), if_neg (by simp [ht])]
    rcases up with ⟨s, mf, tg⟩
    simp only at hs
    subst hs
    simp
  · intro cid rest tagErrs hs hmf htg
    unfold vatHandler
    rw [if_neg (by simp [hm]), if_neg (not_not_intro hfields), if_neg (by simp [ht])]
    rcases up with ⟨s, mf, tg⟩
    simp only at hs hmf htg
    subst hs; subst hmf; subst htg
    simp [jsObjLookup]

/-- C2 witness: the happy-path theorem at a concrete POST whose tag add
reports a userError — the three calls happen in order and the response is
still 200 with `success: true`. -/
theorem C2_vat_happy_path_witness :
    (vatHandler
        { method := "POST", customerEmail := some "buyer@x.ie", businessName := some "Acme",
          country := some "Ireland", vatNumber := some "IE1234567A" }
        { SHOPIFY_DOMAIN := none, SHOP_DOMAIN := none,
          SHOPIFY_ADMIN_API_TOKEN := some "admin", SHOPIFY_API_VERSION := none }
        { search := Except.ok ["gid:c1"], metafields := Except.ok [],
          tags := Except.ok ["tag failed"] }).2.head?.map AdminCall.doc =
      some GqlDoc.searchCustomers ∧
    (vatHandler
        { method := "POST", customerEmail := some "buyer@x.ie", businessName := some "Acme",
          country := some "Ireland", vatNumber := some "IE1234567A" }
        { SHOPIFY_DOMAIN := none, SHOP_DOMAIN := none,
          SHOPIFY_ADMIN_API_TOKEN := some "admin", SHOPIFY_API_VERSION := none }
        { search := Except.ok ["gid:c1"], metafields := Except.ok [],
          tags := Except.ok ["tag failed"] }).2.map AdminCall.doc =
      [GqlDoc.searchCustomers, GqlDoc.updateCustomerMetafield, GqlDoc.addCustomerTag] ∧
    (vatHandler
        { method := "POST", customerEmail := some "buyer@x.ie", businessName := some "Acme",
          country := some "Ireland", vatNumber := some "IE1234567A" }
        { SHOPIFY_DOMAIN := none, SHOP_DOMAIN := none,
          SHOPIFY_ADMIN_API_TOKEN := some "admin", SHOPIFY_API_VERSION := none }
        { search := Except.ok ["gid:c1"], metafields := Except.ok [],
          tags := Except.ok ["tag failed"] }).1.status = 200 ∧
    jsObjLookup "success"
      (vatHandler
        { method := "POST", customerEmail := some "buyer@x.ie", businessName := some "Acme",
          country := some "Ireland", vatNumber := some "IE1234567A" }
        { SHOPIFY_DOMAIN := none, SHOP_DOMAIN := none,
          SHOPIFY_ADMIN_API_TOKEN := some "admin", SHOPIFY_API_VERSION := none }
        { search := Except.ok ["gid:c1"], metafields := Except.ok [],
          tags := Except.ok ["tag failed"] }).1.body = some (Js.jbool true) := by
  have h := C2_vat_happy_path
    { method := "POST", customerEmail := some "buyer@x.ie", businessName := some "Acme",
      country := some "Ireland", vatNumber := some "IE1234567A" }
    { SHOPIFY_DOMAIN := none, SHOP_DOMAIN := none,
      SHOPIFY_ADMIN_API_TOKEN := some "admin", SHOPIFY_API_VERSION := none }
    { search := Except.ok ["gid:c1"], metafields := Except.ok [],
      tags := Except.ok ["tag failed"] }
    rfl ⟨rfl, rfl, rfl, rfl⟩ rfl
  have h3 := h.2.2 "gid:c1" [] ["tag failed"] rfl rfl rfl
  exact ⟨h.1.1, h3.1, h3.2.2.2.1, h3.2.2.2.2⟩

/-- The `+`/`/` swap turns each standard base64 digit into the
corresponding base64url digit. -/
theorem swapChar_b64Char (n : Nat) : swapChar (b64Char n) = b64UrlDigit n := by
  by_cases h : n < 64
  · have hb : ∀ m : Fin 64, swapChar (b64Char m.val) = b64UrlDigit m.val := by decide
    exact hb ⟨n, h⟩
  · have hlen1 : b64Alphabet.length ≤ n := by
      have : b64Alphabet.length = 64 := by decide
      omega
    have hlen2 : b64UrlAlphabet.length ≤ n := by
      have : b64UrlAlphabet.length = 64 := by decide
      omega
    unfold b64Char b64UrlDigit
    rw [List.getD_eq_default _ _ hlen1, List.getD_eq_default _ _ hlen2]
    rfl

/-- No base64url digit is the padding character. -/
theorem b64UrlDigit_ne_pad (n : Nat) : b64UrlDigit n ≠ '=' := by
  by_cases h : n < 64
  · have hb : ∀ m : Fin 64, b64UrlDigit m.val ≠ '=' := by decide
    exact hb ⟨n, h⟩
  · have hlen : b64UrlAlphabet.length ≤ n := by
      have : b64UrlAlphabet.length = 64 := by decide
      omega
    unfold b64UrlDigit
    rw [List.getD_eq_default _ _ hlen]
    decide

/-- `dropWhile` drops nothing when every element fails the predicate. -/
theorem dropWhile_eq_self_of_all (p : Char → Bool) (l : List Char)
    (h : ∀ x ∈ l, p x = false) : l.dropWhile p = l := by
  cases l with
  | nil => rfl
  | cons x xs => simp [List.dropWhile, h x (by simp)]

/-- Stripping from the right past a block of non-padding characters. -/
theorem revDropRev_append (p : Char → Bool) (C A : List Char)
    (hC : ∀ x ∈ C, p x = false) :
    ((C ++ A).reverse.dropWhile p).reverse = C ++ (A.reverse.dropWhile p).reverse := by
  rw [List.reverse_append, List.dropWhile_append]
  by_cases hA : (A.reverse.dropWhile p).isEmpty
  · have h1 : A.reverse.dropWhile p = [] := List.isEmpty_iff.mp hA
    rw [if_pos hA, h1]
    have h2 : C.reverse.dropWhile p = C.reverse :=
      dropWhile_eq_self_of_all p C.reverse (fun x hx => hC x (by simpa using hx))
    simp [h2]
  · rw [if_neg hA]
    simp

/-- Mapping the `+`/`/` swap over the padded base64 digits and stripping
the trailing padding yields exactly the unpadded base64url encoding. -/
theorem strip_map_chunks (bytes : List Nat) :
    (((base64Chunks bytes).map swapChar).reverse.dropWhile (fun c => c = '=')).reverse
      = base64UrlEncodeSpec bytes := by
  induction bytes using base64Chunks.induct with
  | case1 => rfl
  | case2 a =>
    have h := revDropRev_append (fun c => c = '=')
      [b64UrlDigit (a / 4), b64UrlDigit ((a % 4) * 16)] ['=', '=']
      (by
        intro x hx
        fin_cases hx <;> simp [b64UrlDigit_ne_pad])
    simp only [base64Chunks, List.map_cons, List.map_nil, swapChar_b64Char]
    have hsw : swapChar '=' = '=' := rfl
    rw [show ([b64UrlDigit (a / 4), b64UrlDigit ((a % 4) * 16), swapChar '=', swapChar '='] :
          List Char) =
        [b64UrlDigit (a / 4), b64UrlDigit ((a % 4) * 16)] ++ ['=', '='] by simp [hsw]]
    rw [h]
    simp [base64UrlEncodeSpec, List.dropWhile]
  | case3 a b =>
    have h := revDropRev_append (fun c => c = '=')
      [b64UrlDigit (a / 4), b64UrlDigit ((a % 4) * 16 + b / 16), b64UrlDigit ((b % 16) * 4)]
      ['=']
      (by
        intro x hx
        fin_cases hx <;> simp [b64UrlDigit_ne_pad])
    simp only [base64Chunks, List.map_cons, List.map_nil, swapChar_b64Char]
    have hsw : swapChar '=' = '=' := rfl
    rw [show ([b64UrlDigit (a / 4), b64UrlDigit ((a % 4) * 16 + b / 16),
          b64UrlDigit ((b % 16) * 4), swapChar '='] : List Char) =
        [b64UrlDigit (a / 4), b64UrlDigit ((a % 4) * 16 + b / 16),
          b64UrlDigit ((b % 16) * 4)] ++ ['='] by simp [hsw]]
    rw [h]
    simp [base64UrlEncodeSpec, List.dropWhile]
  | case4 a b c rest ih =>
    have h := revDropRev_append (fun c' => c' = '=')
      [b64UrlDigit (a / 4), b64UrlDigit ((a % 4) * 16 + b / 16),
       b64UrlDigit ((b % 16) * 4 + c / 64), b64UrlDigit (c % 64)]
      ((base64Chunks rest).map swapChar)
      (by
        intro x hx
        fin_cases hx <;> simp [b64UrlDigit_ne_pad])
    simp only [base64Chunks, List.map_cons, swapChar_b64Char]
    rw [show (b64UrlDigit (a / 4) :: b64UrlDigit ((a % 4) * 16 + b / 16) ::
          b64UrlDigit ((b % 16) * 4 + c / 64) :: b64UrlDigit (c % 64) ::
          (base64Chunks rest).map swapChar) =
        [b64UrlDigit (a / 4), b64UrlDigit ((a % 4) * 16 + b / 16),
          b64UrlDigit ((b % 16) * 4 + c / 64), b64UrlDigit (c % 64)] ++
          (base64Chunks rest).map swapChar by simp]
    rw [h, ih]
    simp [base64UrlEncodeSpec]

/-- The source's `sha256Base64Url` pipeline (btoa, character swap, strip
padding) computes exactly the unpadded base64url encoding of the digest. -/
theorem sha256Base64Url_eq_spec (sha : List Nat → List Nat) (input : String) :
    sha256Base64Url sha input =
      String.mk (base64UrlEncodeSpec (sha (utf8Bytes input))) :=
  congrArg String.mk (strip_map_chunks (sha (utf8Bytes input)))

/-- C4: in the PKCE login flow, the `code_challenge` placed in the
authorization request equals the unpadded base64url encoding of the
SHA-256 digest of the random verifier, with method `S256`; that same
verifier is persisted under the PKCE storage key; and the token exchange
of `handleOAuthCallback`, reading that persisted record, sends exactly the
persisted verifier as `code_verifier` — for every hash primitive, token
endpoint, clock and starting store. -/
theorem C4_pkce_challenge_and_verifier
    (sha : List Nat → List Nat)
    (tokenPost : List (String × String) → Except String TokenResp)
    (now : Int) (verifier state nonce code : String) (store : Storage)
    (hv : verifier ≠ "") :
    (startLogin sha verifier state nonce store).2.lookup "code_challenge" =
      some (String.mk (base64UrlEncodeSpec (sha (utf8Bytes verifier)))) ∧
    (startLogin sha verifier state nonce store).2.lookup "code_challenge_method" =
      some "S256" ∧
    ((startLogin sha verifier state nonce store).1.pkce.map PkceRecord.verifier) =
      some verifier ∧
    ((handleOAuthCallback tokenPost now code state
        (startLogin sha verifier state nonce store).1).1.map
      (fun form => form.lookup "code_verifier")) = some (some verifier) := by
  refine ⟨?_, ?_, ?_, ?_⟩
  · rw [← sha256Base64Url_eq_spec]
    simp [startLogin, List.lookup]
  · simp [startLogin, List.lookup]
  · simp [startLogin]
  · simp only [startLogin]
    unfold handleOAuthCallback
    simp only []
    rw [if_neg hv]
    rw [if_neg (by
      rintro ⟨-, -, hne⟩
      exact hne rfl)]
    split
    · simp [List.lookup]
    · split
      · simp [List.lookup]
      · split <;> simp [List.lookup]

/-- C4 witness: the PKCE theorem at a concrete hash primitive, verifier
and store. -/
theorem C4_pkce_challenge_witness :
    ("v-abc" : String) ≠ "" ∧
    ((startLogin (fun _ => [1, 2, 3]) "v-abc" "s1" "n1"
        { vat_mode := none, cart_id := none, auth := none, pkce := none,
          profile := none, orders_cache := none }).2.lookup "code_challenge" =
      some (String.mk (base64UrlEncodeSpec ((fun _ => [1, 2, 3]) (utf8Bytes "v-abc")))) ∧
    (startLogin (fun _ => [1, 2, 3]) "v-abc" "s1" "n1"
        { vat_mode := none, cart_id := none, auth := none, pkce := none,
          profile := none, orders_cache := none }).2.lookup "code_challenge_method" =
      some "S256" ∧
    ((startLogin (fun _ => [1, 2, 3]) "v-abc" "s1" "n1"
        { vat_mode := none, cart_id := none, auth := none, pkce := none,
          profile := none, orders_cache := none }).1.pkce.map PkceRecord.verifier) =
      some "v-abc" ∧
    ((handleOAuthCallback (fun _ => Except.error "offline") 0 "authcode" "s1"
        (startLogin (fun _ => [1, 2, 3]) "v-abc" "s1" "n1"
          { vat_mode := none, cart_id := none, auth := none, pkce := none,
            profile := none, orders_cache := none }).1).1.map
      (fun form => form.lookup "code_verifier")) = some (some "v-abc")) :=
  ⟨by decide,
   C4_pkce_challenge_and_verifier (fun _ => [1, 2, 3])
     (fun _ => Except.error "offline") 0 "v-abc" "s1" "n1" "authcode"
     { vat_mode := none, cart_id := none, auth := none, pkce := none,
       profile := none, orders_cache := none }
     (by decide)⟩
